import Mathlib

/-
Verification of the turn-resolution engine of the Dungeon-Hero game
(src/game.py).  The mutable game state of the Python source is embedded as
an explicit state record; the external collaborator subsystems (combat
math, trap system, field of view, dungeon generation, persistence, input
decoding), which live in modules outside the provided source, are modelled
from the specification's interface contracts as function parameters
bundled in a `Collabs` record, so that every theorem quantifies over their
behaviour wherever the source does not constrain it.
-/

set_option maxHeartbeats 1000000

namespace DungeonHero

/-- A 2-D coordinate, mirroring core.position.Position. -/
structure Position where
  x : Int
  y : Int
deriving DecidableEq, Repr

/-- A pickup, mirroring core.item.Item: a name, a categorical tag
(consumable / weapon / armor / currency), a value and a floor position. -/
structure Item where
  name : String
  itemCategory : String
  value : Nat
  pos : Position
deriving DecidableEq, Repr

/-- The player's statistics block: every player field game.py reads or
writes other than the position.  `tempAtkDuration := none` models the
`temp_atk_duration` attribute being absent (the source probes it with
`hasattr`). -/
structure PStats where
  hp : Int
  maxHp : Int
  atk : Int
  defense : Int
  xp : Nat
  level : Nat
  gold : Nat
  inventory : List Item
  maxInventory : Nat
  tempAtkDuration : Option Int
deriving DecidableEq, Repr

/-- The player entity: a position plus the statistics block. -/
structure Player where
  pos : Position
  st : PStats
deriving DecidableEq, Repr

/-- Modelled from the spec: Player.is_alive of core.entity (not under
src/) — the alive flag of an entity, true while hit points are positive. -/
def Player.is_alive (p : Player) : Bool := p.st.hp > 0

/-- Alive check on a bare statistics block. -/
def aliveSt (st : PStats) : Bool := st.hp > 0

/-- An enemy entity, mirroring core.entity.Enemy as game.py uses it:
position, hit points, an XP reward and a kind tag. -/
structure Enemy where
  kind : String
  pos : Position
  hp : Int
  atk : Int
  xpReward : Nat
deriving DecidableEq, Repr

/-- Modelled from the spec: Enemy.is_alive of core.entity (not under
src/) — true while hit points are positive. -/
def Enemy.is_alive (e : Enemy) : Bool := e.hp > 0

/-- A trap record: position, trigger state and effect tag.  game.py only
stores the collection; all behaviour lives in the trap collaborator. -/
structure Trap where
  pos : Position
  triggered : Bool
  effect : String
deriving DecidableEq, Repr

/-- A room descriptor; game.py only stores the list it gets from the
generator. -/
structure Room where
  x : Int
  y : Int
  w : Nat
  h : Nat
deriving DecidableEq, Repr

/-- The result record of the geometry generator collaborator
(`generate(level)` in systems.dungeon_generator, not under src/),
modelled from the spec's interface contract. -/
structure DungeonData where
  map : List (List Char)
  rooms : List Room
  width : Nat
  height : Nat
  stairsUp : Option Position
  stairsDown : Option Position
  playerStart : Position
deriving DecidableEq, Repr

/-- The world snapshot game.py keeps in the `game_state` dictionary. -/
structure GameState where
  currentLevel : Nat
  map : List (List Char)
  explored : List (List Bool)
  visible : List (List Bool)
  rooms : List Room
  player : Player
  enemies : List Enemy
  items : List Item
  traps : List Trap
  messages : List String
  stairsUp : Option Position
  stairsDown : Option Position
  width : Nat
  height : Nat
deriving DecidableEq, Repr

/-- The engine-level control fields GameEngine keeps beside the world
snapshot: the running flag, the inventory sub-mode flag, the selected
inventory index and the active save slot. -/
structure Engine where
  gs : GameState
  running : Bool
  showingInventory : Bool
  selectedItemIndex : Int
  currentSaveSlot : Nat
deriving DecidableEq, Repr

/-- The configuration values game.py reads: the message-log cap
(`max_messages`, default 10) and the final floor (`total_levels`,
default 5). -/
structure Config where
  maxMessages : Nat
  totalLevels : Nat
deriving DecidableEq, Repr

/-- The decoded input actions, modelled from the spec's input contract
(systems.input_handler is not under src/): eight directions, wait,
inventory, help, quit/escape, numbered slots, use and drop. -/
inductive Action where
  | moveUp | moveDown | moveLeft | moveRight
  | moveUpLeft | moveUpRight | moveDownLeft | moveDownRight
  | wait | inventory | help | quit | esc
  | useItem | dropItem
  | number (n : Nat)
deriving DecidableEq, Repr

/-- Python list indexing semantics: a non-negative index reads directly,
a negative index wraps from the end, and anything else raises IndexError
(`none`). -/
def pyGet {α : Type} (l : List α) (i : Int) : Option α :=
  if 0 ≤ i then l.get? i.toNat
  else if 0 ≤ (l.length : Int) + i then l.get? ((l.length : Int) + i).toNat
  else none

/-- The tile read `game_map[new_y][new_x]` with Python semantics. -/
def pyTile (g : List (List Char)) (x y : Int) : Option Char :=
  match pyGet g y with
  | some row => pyGet row x
  | none => none

/-- Python's `list.remove`: drop the first occurrence of a value (the
source only calls it on present elements, where leaving an absent value
untouched is unobservable). -/
def removeFirst {α : Type} [DecidableEq α] (xs : List α) (a : α) : List α :=
  match xs with
  | [] => []
  | x :: rest => if x = a then rest else x :: removeFirst rest a

/-- Replace the first occurrence of a value, modelling an in-place
mutation of a list element object. -/
def replaceFirst {α : Type} [DecidableEq α] (xs : List α) (a b : α) : List α :=
  match xs with
  | [] => []
  | x :: rest => if x = a then b :: rest else x :: replaceFirst rest a b

/-- Turn an optional message into the list of messages actually logged
(Python logs a returned message only when it is truthy). -/
def optMsg (m : Option String) : List String :=
  match m with
  | some s => [s]
  | none => []

/-- GameEngine.add_message: append and evict down to the configured cap. -/
def addMessage (cfg : Config) (gs : GameState) (m : String) : GameState :=
  let ms := gs.messages ++ [m]
  let ms := if ms.length > cfg.maxMessages then ms.drop (ms.length - cfg.maxMessages) else ms
  { gs with messages := ms }

/-- Sequential add_message calls, in program order. -/
def applyMsgs (cfg : Config) (gs : GameState) (ms : List String) : GameState :=
  ms.foldl (addMessage cfg) gs

/-- Update only the player's hit points. -/
def setPlayerHp (p : Player) (hp : Int) : Player :=
  { p with st := { p.st with hp := hp } }

/-- Modelled from the spec: the input collaborator's movement deltas for
the eight directional actions (systems.input_handler is not under src/). -/
def getMovementDelta (a : Action) : Option (Int × Int) :=
  match a with
  | .moveUp => some (0, -1)
  | .moveDown => some (0, 1)
  | .moveLeft => some (-1, 0)
  | .moveRight => some (1, 0)
  | .moveUpLeft => some (-1, -1)
  | .moveUpRight => some (1, -1)
  | .moveDownLeft => some (-1, 1)
  | .moveDownRight => some (1, 1)
  | _ => none

/-- Modelled from the spec: the numbered-slot index of a number key
(systems.input_handler is not under src/): slot n selects index n - 1. -/
def getItemIndex (n : Nat) : Int := (n : Int) - 1

/-- Modelled from the spec: Player.add_to_inventory of core.entity (not
under src/) — append when within capacity and report success, in line
with the invariant that inventory size never exceeds the capacity. -/
def addToInventory (st : PStats) (it : Item) : PStats × Bool :=
  if st.inventory.length < st.maxInventory then
    ({ st with inventory := st.inventory ++ [it] }, true)
  else (st, false)

/-- Modelled from the spec: Player.get_inventory_item of core.entity (not
under src/) — fetch by index, `none` when out of range. -/
def getInventoryItem (st : PStats) (i : Int) : Option Item :=
  if 0 ≤ i then st.inventory.get? i.toNat else none

/-- Modelled from the spec: Player.remove_from_inventory of core.entity
(not under src/) — pop at index, returning the removed item when the
index is in range. -/
def removeFromInventory (st : PStats) (i : Int) : PStats × Option Item :=
  if 0 ≤ i ∧ i.toNat < st.inventory.length then
    ({ st with inventory := st.inventory.eraseIdx i.toNat }, st.inventory.get? i.toNat)
  else (st, none)

/-- The external collaborator subsystems, modelled from the spec's
interface contracts (their modules are not under src/).  Each signature
returns exactly the state the spec lets that collaborator change: combat
math updates the defender and, for an enemy turn, the player's hit
points; the trap system updates the player's statistics block and the
trap collection; level-up adjusts the statistics block.  Random spawning
(src lines 159-234) draws on the external random source, so the spawn
results are supplied as oracle functions of exactly the inputs the
source reads: the level, the generated geometry and the player start. -/
structure Collabs where
  attack : Player → Enemy → Enemy × String
  checkLevelUp : PStats → PStats × Option String
  enemyTakeTurn : Enemy → Player → List (List Char) → Nat → Nat → Enemy × Int × Option String
  checkTrapAt : Int → Int → PStats → List Trap → PStats × List Trap × Option String
  removeTriggeredTraps : List Trap → List Trap
  updatePlayerPoison : PStats → PStats × Option String
  useItem : Player → Item → List Enemy → Player × List Enemy × String
  equipItem : Player → Item → Player × String
  computeVisible : List (List Char) → Position → Nat → Nat → List (List Bool)
  updateExplored : List (List Bool) → List (List Bool) → List (List Bool)
  saveGame : GameState → Nat → Bool
  generate : Nat → DungeonData
  isWalkable : List (List Char) → Int → Int → Bool
  spawnEnemies : Nat → DungeonData → Position → List Enemy × List String
  spawnItems : Nat → List (List Char) → List Item
  generateTraps : List (List Char) → Nat → Nat → Nat → Position → List Trap

/-- GameEngine._update_fov: recompute the visible mask and union it into
the explored mask via the FOV collaborator. -/
def updateFov (C : Collabs) (gs : GameState) : GameState :=
  let vis := C.computeVisible gs.map gs.player.pos gs.width gs.height
  { gs with visible := vis, explored := C.updateExplored vis gs.explored }

/-- GameEngine._get_enemy_at: the first living enemy at the coordinates. -/
def getEnemyAt (es : List Enemy) (x y : Int) : Option Enemy :=
  match es with
  | [] => none
  | e :: rest =>
    if e.is_alive ∧ e.pos.x = x ∧ e.pos.y = y then some e else getEnemyAt rest x y

/-- GameEngine._update_temporary_effects (src lines 499-511): when the
temporary-attack counter is present and positive, decrement it; on
reaching exactly zero, revert the +5 attack bonus floored at 3 and
report the expiry message (the source's message list can hold at most
this one message, so the join collapses to an optional message). -/
def updateTemporaryEffects (st : PStats) : PStats × Option String :=
  match st.tempAtkDuration with
  | none => (st, none)
  | some d =>
    if d > 0 then
      let d1 := d - 1
      if d1 = 0 then
        ({ st with tempAtkDuration := some d1, atk := max 3 (st.atk - 5) },
          some ("力量药水的效果消失了。"))
      else ({ st with tempAtkDuration := some d1 }, none)
    else (st, none)

/-- Lines 494-497 of _enemy_turn: apply the ticker to the player and log
its message when present. -/
def tickTempEffects (cfg : Config) (gs : GameState) : GameState :=
  let r := updateTemporaryEffects gs.player.st
  let gs1 := { gs with player := { gs.player with st := r.1 } }
  match r.2 with
  | some m => addMessage cfg gs1 m
  | none => gs1

/-- The outcome of one iteration sweep of _enemy_turn (src lines
465-480): the enemy list with in-place updates applied, the
already-dead enemies collected for removal, the player after the acting
enemies' damage, the messages logged during the sweep in order, and
whether the sweep returned early because the player died. -/
structure PassResult where
  updated : List Enemy
  toRemove : List Enemy
  player : Player
  msgs : List String
  died : Bool
deriving DecidableEq, Repr

/-- The iteration sweep of _enemy_turn: each living enemy takes its turn
through the combat collaborator (which updates the enemy object in
place and damages the player); if the player is left dead the sweep
returns immediately; dead enemies are collected for the later removal
phase. -/
def enemyPass (C : Collabs) (g : List (List Char)) (w h : Nat) :
    Player → List Enemy → PassResult
  | p, [] => ⟨[], [], p, [], false⟩
  | p, e :: rest =>
    if e.is_alive then
      let t := C.enemyTakeTurn e p g w h
      let p2 := setPlayerHp p t.2.1
      if p2.is_alive then
        let r := enemyPass C g w h p2 rest
        ⟨t.1 :: r.updated, r.toRemove, r.player, optMsg t.2.2 ++ r.msgs, r.died⟩
      else ⟨t.1 :: rest, [], p2, optMsg t.2.2, true⟩
    else
      let r := enemyPass C g w h p rest
      ⟨e :: r.updated, e :: r.toRemove, r.player, r.msgs, r.died⟩

/-- GameEngine._enemy_turn (src lines 458-497): run the sweep; on an
early player death stop there; otherwise remove the collected dead
enemies, apply the poison tick (logging its message and stopping if it
left the player dead) and finally tick the temporary effects.  The
sweep's messages are applied in program order; add_message only touches
the log, so logging them after reassembly is observationally the
in-loop interleaving. -/
def enemyTurn (C : Collabs) (cfg : Config) (gs : GameState) : GameState :=
  let r := enemyPass C gs.map gs.width gs.height gs.player gs.enemies
  let gs1 := applyMsgs cfg { gs with enemies := r.updated, player := r.player } r.msgs
  if r.died then gs1
  else
    let gs2 := { gs1 with enemies := r.toRemove.foldl removeFirst r.updated }
    let t := C.updatePlayerPoison gs2.player.st
    let gs3 := { gs2 with player := { gs2.player with st := t.1 } }
    match t.2 with
    | some m =>
      let gs4 := addMessage cfg gs3 m
      if gs4.player.is_alive then tickTempEffects cfg gs4 else gs4
    | none => tickTempEffects cfg gs3

/-- The scan of _check_pickup_item (src lines 434-452) over the item
list: thread the player's statistics, and return the messages logged and
the items collected into items_to_remove, both in order. -/
def pickupScan (pos : Position) : List Item → PStats → PStats × List String × List Item
  | [], st => (st, [], [])
  | it :: rest, st =>
    if it.pos.x = pos.x ∧ it.pos.y = pos.y then
      if it.itemCategory = "currency" then
        let r := pickupScan pos rest { st with gold := st.gold + it.value }
        (r.1, ("拾取了" ++ it.name) :: r.2.1, it :: r.2.2)
      else if st.inventory.length < st.maxInventory then
        let a := addToInventory st it
        if a.2 then
          let r := pickupScan pos rest a.1
          (r.1, ("拾取了" ++ it.name) :: r.2.1, it :: r.2.2)
        else
          let r := pickupScan pos rest a.1
          (r.1, r.2.1, r.2.2)
      else
        let r := pickupScan pos rest st
        (r.1, ("物品栏已满！") :: r.2.1, r.2.2)
    else
      let r := pickupScan pos rest st
      (r.1, r.2.1, r.2.2)

/-- GameEngine._check_pickup_item (src lines 434-456): scan the floor
items at the player's position, then remove the collected items from the
floor list.  Messages are logged in scan order (add_message commutes
with the non-log mutations of the scan). -/
def checkPickupItem (cfg : Config) (gs : GameState) : GameState :=
  let r := pickupScan gs.player.pos gs.items gs.player.st
  let gs1 := applyMsgs cfg { gs with player := { gs.player with st := r.1 } } r.2.1
  { gs1 with items := r.2.2.foldl removeFirst gs1.items }

/-- The all-false mask `[[False] * width] * height` built at src lines
125-128. -/
def falseMask (w h : Nat) : List (List Bool) :=
  List.replicate h (List.replicate w false)

/-- GameEngine._generate_level (src lines 108-157): fetch new geometry,
replace the map, rooms, dimensions, stairs and level, reset both masks
to all-false, move the player to the generated start, clear and respawn
the enemy, item and trap collections, recompute the field of view and
log the floor-entry message. -/
def generateLevel (C : Collabs) (cfg : Config) (gs0 : GameState) (level : Nat) : GameState :=
  let dd := C.generate level
  let gs1 := { gs0 with
    map := dd.map, rooms := dd.rooms, width := dd.width, height := dd.height,
    stairsUp := dd.stairsUp, stairsDown := dd.stairsDown, currentLevel := level,
    explored := falseMask dd.width dd.height, visible := falseMask dd.width dd.height,
    player := { gs0.player with pos := dd.playerStart },
    enemies := [], items := [], traps := [] }
  let se := C.spawnEnemies level dd gs1.player.pos
  let gs2 := applyMsgs cfg { gs1 with enemies := se.1 } se.2
  let gs3 := { gs2 with items := C.spawnItems level dd.map }
  let gs4 := { gs3 with traps := C.generateTraps dd.map dd.width dd.height level dd.playerStart }
  let gs5 := updateFov C gs4
  addMessage cfg gs5 (("进入第" ++ toString level) ++ ("层地牢"))

/-- GameEngine._go_downstairs (src lines 513-522): at or past the final
floor trigger victory (render the victory screen and clear the running
flag); otherwise regenerate for the next floor down. -/
def goDownstairs (C : Collabs) (cfg : Config) (e : Engine) : Engine :=
  if e.gs.currentLevel ≥ cfg.totalLevels then { e with running := false }
  else { e with gs := generateLevel C cfg e.gs (e.gs.currentLevel + 1) }

/-- GameEngine._go_upstairs (src lines 524-530): above floor 1
regenerate one floor up, otherwise log the topmost-floor message. -/
def goUpstairs (C : Collabs) (cfg : Config) (e : Engine) : Engine :=
  if e.gs.currentLevel > 1 then
    { e with gs := generateLevel C cfg e.gs (e.gs.currentLevel - 1) }
  else { e with gs := addMessage cfg e.gs ("这是地牢的顶层，无法继续上楼") }

/-- The player-attack branch of _handle_game_action (src lines 293-309):
one attack through the combat collaborator updates the target enemy in
place; if it died, grant its XP reward, log the gain, run the level-up
check, and remove the enemy from the collection synchronously. -/
def playerAttackEnemy (C : Collabs) (cfg : Config) (gs : GameState) (te : Enemy) : GameState :=
  let a := C.attack gs.player te
  let gs1 := addMessage cfg { gs with enemies := replaceFirst gs.enemies te a.1 } a.2
  if a.1.is_alive then gs1
  else
    let p1 := { gs1.player with st := { gs1.player.st with xp := gs1.player.st.xp + a.1.xpReward } }
    let gs2 := addMessage cfg { gs1 with player := p1 }
      (("获得" ++ toString a.1.xpReward) ++ ("点经验！"))
    let lu := C.checkLevelUp gs2.player.st
    let gs3 := { gs2 with player := { gs2.player with st := lu.1 } }
    let gs4 := match lu.2 with
      | some m => addMessage cfg gs3 m
      | none => gs3
    { gs4 with enemies := removeFirst gs4.enemies a.1 }

/-- The tail of the successful-move branch (src lines 331-345): check
item pickup, then the tile symbol for an automatic staircase transition,
otherwise run the enemy turn and recompute visibility.  The tile read
uses Python indexing; `none` is an uncaught IndexError. -/
def afterTrapStep (C : Collabs) (cfg : Config) (e : Engine) (gs : GameState) (nx ny : Int) :
    Option Engine :=
  let gs1 := checkPickupItem cfg gs
  match pyTile gs1.map nx ny with
  | none => none
  | some t =>
    if t = '>' then some (goDownstairs C cfg { e with gs := gs1 })
    else if t = '<' then some (goUpstairs C cfg { e with gs := gs1 })
    else some { e with gs := updateFov C (enemyTurn C cfg gs1) }

/-- The directional-move branch of _handle_game_action (src lines
285-352).  A living enemy on the target tile dispatches to combat (the
player does not move) followed by one enemy turn and a visibility
recomputation; otherwise a walkable target moves the player, runs the
trap check (player death there ends the game at once), pickup and the
staircase check, then the enemy turn; a non-walkable target is only
inspected for a staircase symbol, with Python indexing semantics on the
tile read (`none` models the uncaught IndexError). -/
def handleMove (C : Collabs) (cfg : Config) (e : Engine) (dx dy : Int) : Option Engine :=
  let gs := e.gs
  let nx := gs.player.pos.x + dx
  let ny := gs.player.pos.y + dy
  match getEnemyAt gs.enemies nx ny with
  | some te =>
    some { e with gs := updateFov C (enemyTurn C cfg (playerAttackEnemy C cfg gs te)) }
  | none =>
    if C.isWalkable gs.map nx ny then
      let gs1 := { gs with player := { gs.player with pos := ⟨nx, ny⟩ } }
      let tr := C.checkTrapAt nx ny gs1.player.st gs1.traps
      let gs2 := { gs1 with player := { gs1.player with st := tr.1 }, traps := tr.2.1 }
      match tr.2.2 with
      | some m =>
        let gs3 := addMessage cfg gs2 m
        let gs4 := { gs3 with traps := C.removeTriggeredTraps gs3.traps }
        if gs4.player.is_alive then afterTrapStep C cfg e gs4 nx ny
        else some { e with gs := gs4, running := false }
      | none => afterTrapStep C cfg e gs2 nx ny
    else
      match pyTile gs.map nx ny with
      | none => none
      | some t =>
        if t = '>' then some (goDownstairs C cfg e)
        else if t = '<' then some (goUpstairs C cfg e)
        else some e

/-- GameEngine._handle_game_action (src lines 279-380): dispatch a
decoded action in normal play.  Wait logs and runs an enemy turn;
inventory opens the sub-mode; help only renders; the 9 key saves through
the persistence collaborator; quit and escape clear the running flag;
any other non-move action falls through every branch untouched. -/
def handleGameAction (C : Collabs) (cfg : Config) (e : Engine) (a : Action) : Option Engine :=
  match getMovementDelta a with
  | some d => handleMove C cfg e d.1 d.2
  | none =>
    match a with
    | .wait =>
      let e1 := { e with gs := addMessage cfg e.gs ("你等待了一会儿...") }
      some { e1 with gs := updateFov C (enemyTurn C cfg e1.gs) }
    | .inventory => some { e with showingInventory := true, selectedItemIndex := -1 }
    | .help => some e
    | .number 9 =>
      if C.saveGame e.gs e.currentSaveSlot then
        let m := ("游戏已保存到槽位" ++ toString e.currentSaveSlot)
        some { e with gs := addMessage cfg e.gs m }
      else some { e with gs := addMessage cfg e.gs ("保存失败！") }
    | .quit => some { e with running := false, gs := addMessage cfg e.gs ("游戏结束") }
    | .esc => some { e with running := false, gs := addMessage cfg e.gs ("游戏结束") }
    | _ => some e

/-- GameEngine._handle_inventory_action (src lines 382-425): number keys
set the selection; use dispatches a consumable to the item-use
collaborator (which may target the enemy collection) or equipment to the
equip collaborator, then removes the slot, exits the sub-mode and
recomputes visibility; drop moves the slot's item to the floor at the
player's position; quit, escape or inventory close the sub-mode. -/
def handleInventoryAction (C : Collabs) (cfg : Config) (e : Engine) (a : Action) : Engine :=
  match a with
  | .number n => { e with selectedItemIndex := getItemIndex n }
  | .useItem =>
    let e1 :=
      if 0 ≤ e.selectedItemIndex then
        match getInventoryItem e.gs.player.st e.selectedItemIndex with
        | some it =>
          if it.itemCategory = "consumable" then
            let u := C.useItem e.gs.player it e.gs.enemies
            let p3 := { u.1 with st := (removeFromInventory u.1.st e.selectedItemIndex).1 }
            { e with gs := addMessage cfg { e.gs with player := p3, enemies := u.2.1 } u.2.2 }
          else if it.itemCategory = "weapon" ∨ it.itemCategory = "armor" then
            let q := C.equipItem e.gs.player it
            let p3 := { q.1 with st := (removeFromInventory q.1.st e.selectedItemIndex).1 }
            { e with gs := addMessage cfg { e.gs with player := p3 } q.2 }
          else { e with gs := addMessage cfg e.gs (("无法使用" ++ it.name)) }
        | none => { e with gs := addMessage cfg e.gs ("没有选择物品") }
      else e
    let e2 := { e1 with showingInventory := false, selectedItemIndex := -1 }
    { e2 with gs := updateFov C e2.gs }
  | .dropItem =>
    let e1 :=
      if 0 ≤ e.selectedItemIndex then
        let d := removeFromInventory e.gs.player.st e.selectedItemIndex
        match d.2 with
        | some it =>
          let it2 := { it with pos := e.gs.player.pos }
          let pd := { e.gs.player with st := d.1 }
          let gsd := { e.gs with player := pd, items := e.gs.items ++ [it2] }
          { e with gs := addMessage cfg gsd (("丢弃了" ++ it.name)) }
        | none => { e with gs := { e.gs with player := { e.gs.player with st := d.1 } } }
      else e
    let e2 := { e1 with showingInventory := false, selectedItemIndex := -1 }
    { e2 with gs := updateFov C e2.gs }
  | .quit => { e with showingInventory := false, selectedItemIndex := -1 }
  | .esc => { e with showingInventory := false, selectedItemIndex := -1 }
  | .inventory => { e with showingInventory := false, selectedItemIndex := -1 }
  | _ => e

/-- Follows the spec's words (§4.1 pickup rule), for comparison with the
source scan: every co-located item is evaluated independently in the
same turn — a currency item adds its value to gold and is removed
unconditionally; a non-currency item is added to inventory and removed
when the inventory has free capacity; otherwise the inventory-full
message is logged and the item stays on the ground.  Returns the
statistics block, the messages in order, and the items remaining on the
floor. -/
def pickupRule (pos : Position) : List Item → PStats → PStats × List String × List Item
  | [], st => (st, [], [])
  | it :: rest, st =>
    if it.pos.x = pos.x ∧ it.pos.y = pos.y then
      if it.itemCategory = "currency" then
        let r := pickupRule pos rest { st with gold := st.gold + it.value }
        (r.1, ("拾取了" ++ it.name) :: r.2.1, r.2.2)
      else if st.inventory.length < st.maxInventory then
        let r := pickupRule pos rest { st with inventory := st.inventory ++ [it] }
        (r.1, ("拾取了" ++ it.name) :: r.2.1, r.2.2)
      else
        let r := pickupRule pos rest st
        (r.1, ("物品栏已满！") :: r.2.1, it :: r.2.2)
    else
      let r := pickupRule pos rest st
      (r.1, r.2.1, it :: r.2.2)

/-- Modelled from the spec: the geometry collaborator's is_walkable
(systems.dungeon_generator is not under src/) — a tile is walkable when
it lies inside the grid and carries the floor symbol; walls and
staircases are not walkable. -/
def walkableModel (g : List (List Char)) (x y : Int) : Bool :=
  if 0 ≤ x ∧ 0 ≤ y then
    match g.get? y.toNat with
    | some row =>
      match row.get? x.toNat with
      | some c => c = '.'
      | none => false
    | none => false
  else false

/-- The configuration used by the concrete evaluations: message cap 10,
five floors. -/
def testCfg : Config := ⟨10, 5⟩

/-- A 3-by-3 grid: walls around a two-tile floor column at x = 1. -/
def testMap : List (List Char) :=
  [[ '#', '#', '#' ], [ '#', '.', '#' ], [ '#', '.', '#' ]]

/-- The geometry the concrete generator oracle returns. -/
def testDungeon : DungeonData :=
  ⟨testMap, [], 3, 3, none, some ⟨1, 2⟩, ⟨1, 1⟩⟩

/-- A baseline player at (1,1). -/
def basePlayer : Player :=
  ⟨⟨1, 1⟩, ⟨20, 20, 5, 2, 0, 1, 0, [], 10, none⟩⟩

/-- A baseline world on the test grid with empty collections. -/
def baseGs : GameState :=
  ⟨1, testMap, falseMask 3 3, falseMask 3 3, [], basePlayer,
   [], [], [], [], none, some ⟨1, 2⟩, 3, 3⟩

/-- A baseline engine in normal play mode. -/
def baseEngine : Engine := ⟨baseGs, true, false, -1, 1⟩

/-- A concrete instantiation of every collaborator, used by the witness
evaluations: the attack deals the attacker's attack value, an enemy turn
deals one point of damage with a message, the poison tick strikes for
five once the player is at three hit points or fewer (reporting a
message whenever it deals damage), and item use burns every enemy to
zero hit points. -/
def testCollabs : Collabs where
  attack := fun p e => ({ e with hp := e.hp - p.st.atk }, ("你攻击了" ++ e.kind))
  checkLevelUp := fun st =>
    if st.xp ≥ 10 then ({ st with level := st.level + 1 }, some ("升级了！")) else (st, none)
  enemyTakeTurn := fun e p _ _ _ => ({ e with hp := max e.hp 1 }, p.st.hp - 1, some (e.kind ++ "攻击了你"))
  checkTrapAt := fun _ _ st tr => (st, tr, none)
  removeTriggeredTraps := fun tr => tr
  updatePlayerPoison := fun st =>
    if st.hp ≤ 3 then ({ st with hp := st.hp - 5 }, some ("毒素侵蚀着你")) else (st, none)
  useItem := fun p _ es => (p, es.map (fun x => { x with hp := 0 }), ("火球术烧灼了所有敌人"))
  equipItem := fun p _ => (p, ("装备完成"))
  computeVisible := fun _ _ w h => falseMask w h
  updateExplored := fun v _ => v
  saveGame := fun _ _ => true
  generate := fun _ => testDungeon
  isWalkable := walkableModel
  spawnEnemies := fun _ _ _ => ([], [])
  spawnItems := fun _ _ => []
  generateTraps := fun _ _ _ _ _ => []

/-- A living goblin standing on the floor tile (1,2). -/
def wGoblin : Enemy := ⟨"哥布林", ⟨1, 2⟩, 3, 2, 5⟩

/-- A living orc. -/
def wOrc : Enemy := ⟨"兽人", ⟨1, 2⟩, 4, 2, 7⟩

/-- An offensive consumable scroll held in the inventory. -/
def wScroll : Item := ⟨"火球卷轴", "consumable", 0, ⟨1, 1⟩⟩

/-- World for the mid-pass-death evaluation: the player has one hit
point and two living enemies are present. -/
def c2Gs : GameState :=
  { baseGs with
    player := { basePlayer with st := { basePlayer.st with hp := 1 } },
    enemies := [wGoblin, wOrc] }

/-- Engine for the inventory-use evaluation: inventory mode open, slot 0
selected, the scroll in the inventory and a living goblin present. -/
def c3Engine : Engine :=
  { baseEngine with
    showingInventory := true,
    selectedItemIndex := 0,
    gs := { baseGs with
      player := { basePlayer with st := { basePlayer.st with inventory := [wScroll] } },
      enemies := [wGoblin] } }

/-- World for the purge evaluation: one already-dead goblin and one
living orc. -/
def c3bGs : GameState :=
  { baseGs with enemies := [{ wGoblin with hp := 0 }, wOrc] }

/-- World for the poison-death evaluation: the player has two hit
points, within the modelled poison threshold, and no enemies. -/
def c7Gs : GameState :=
  { baseGs with player := { basePlayer with st := { basePlayer.st with hp := 2 } } }

/-- Engine with an adjacent living enemy below the player. -/
def c1Engine : Engine := { baseEngine with gs := { baseGs with enemies := [wGoblin] } }

/-- Engine with the player on the bottom floor tile (1,2), one step away
from the lower grid edge. -/
def c10Engine : Engine :=
  { baseEngine with gs := { baseGs with player := { basePlayer with pos := ⟨1, 2⟩ } } }

theorem addMessage_shape (cfg : Config) (gs : GameState) (m : String) :
    ∃ l, addMessage cfg gs m = { gs with messages := l } := ⟨_, rfl⟩

theorem applyMsgs_shape (cfg : Config) :
    ∀ (ms : List String) (gs : GameState),
      ∃ l, applyMsgs cfg gs ms = { gs with messages := l } := by
  intro ms
  induction ms with
  | nil => intro gs; exact ⟨gs.messages, rfl⟩
  | cons m rest ih =>
    intro gs
    obtain ⟨l, hl⟩ := ih (addMessage cfg gs m)
    obtain ⟨l0, h0⟩ := addMessage_shape cfg gs m
    refine ⟨l, ?_⟩
    have h1 : applyMsgs cfg gs (m :: rest) = applyMsgs cfg (addMessage cfg gs m) rest := rfl
    rw [h1, hl, h0]

theorem addMessage_player (cfg : Config) (gs : GameState) (m : String) :
    (addMessage cfg gs m).player = gs.player := rfl

theorem addMessage_rooms (cfg : Config) (gs : GameState) (m : String) :
    (addMessage cfg gs m).rooms = gs.rooms := rfl

theorem addMessage_stairsUp (cfg : Config) (gs : GameState) (m : String) :
    (addMessage cfg gs m).stairsUp = gs.stairsUp := rfl

theorem addMessage_stairsDown (cfg : Config) (gs : GameState) (m : String) :
    (addMessage cfg gs m).stairsDown = gs.stairsDown := rfl

theorem addMessage_visible (cfg : Config) (gs : GameState) (m : String) :
    (addMessage cfg gs m).visible = gs.visible := rfl

theorem addMessage_explored (cfg : Config) (gs : GameState) (m : String) :
    (addMessage cfg gs m).explored = gs.explored := rfl

theorem addMessage_traps (cfg : Config) (gs : GameState) (m : String) :
    (addMessage cfg gs m).traps = gs.traps := rfl

theorem addMessage_items (cfg : Config) (gs : GameState) (m : String) :
    (addMessage cfg gs m).items = gs.items := rfl

theorem addMessage_enemies (cfg : Config) (gs : GameState) (m : String) :
    (addMessage cfg gs m).enemies = gs.enemies := rfl

theorem addMessage_map (cfg : Config) (gs : GameState) (m : String) :
    (addMessage cfg gs m).map = gs.map := rfl

theorem addMessage_level (cfg : Config) (gs : GameState) (m : String) :
    (addMessage cfg gs m).currentLevel = gs.currentLevel := rfl

theorem addMessage_width (cfg : Config) (gs : GameState) (m : String) :
    (addMessage cfg gs m).width = gs.width := rfl

theorem addMessage_height (cfg : Config) (gs : GameState) (m : String) :
    (addMessage cfg gs m).height = gs.height := rfl

theorem applyMsgs_player (cfg : Config) (ms : List String) (gs : GameState) :
    (applyMsgs cfg gs ms).player = gs.player := by
  obtain ⟨l, h⟩ := applyMsgs_shape cfg ms gs
  rw [h]

theorem applyMsgs_traps (cfg : Config) (ms : List String) (gs : GameState) :
    (applyMsgs cfg gs ms).traps = gs.traps := by
  obtain ⟨l, h⟩ := applyMsgs_shape cfg ms gs
  rw [h]

theorem applyMsgs_items (cfg : Config) (ms : List String) (gs : GameState) :
    (applyMsgs cfg gs ms).items = gs.items := by
  obtain ⟨l, h⟩ := applyMsgs_shape cfg ms gs
  rw [h]

theorem applyMsgs_enemies (cfg : Config) (ms : List String) (gs : GameState) :
    (applyMsgs cfg gs ms).enemies = gs.enemies := by
  obtain ⟨l, h⟩ := applyMsgs_shape cfg ms gs
  rw [h]

theorem applyMsgs_map (cfg : Config) (ms : List String) (gs : GameState) :
    (applyMsgs cfg gs ms).map = gs.map := by
  obtain ⟨l, h⟩ := applyMsgs_shape cfg ms gs
  rw [h]

theorem applyMsgs_level (cfg : Config) (ms : List String) (gs : GameState) :
    (applyMsgs cfg gs ms).currentLevel = gs.currentLevel := by
  obtain ⟨l, h⟩ := applyMsgs_shape cfg ms gs
  rw [h]

theorem applyMsgs_width (cfg : Config) (ms : List String) (gs : GameState) :
    (applyMsgs cfg gs ms).width = gs.width := by
  obtain ⟨l, h⟩ := applyMsgs_shape cfg ms gs
  rw [h]

theorem applyMsgs_height (cfg : Config) (ms : List String) (gs : GameState) :
    (applyMsgs cfg gs ms).height = gs.height := by
  obtain ⟨l, h⟩ := applyMsgs_shape cfg ms gs
  rw [h]

theorem applyMsgs_rooms (cfg : Config) (ms : List String) (gs : GameState) :
    (applyMsgs cfg gs ms).rooms = gs.rooms := by
  obtain ⟨l, h⟩ := applyMsgs_shape cfg ms gs
  rw [h]

theorem applyMsgs_stairsUp (cfg : Config) (ms : List String) (gs : GameState) :
    (applyMsgs cfg gs ms).stairsUp = gs.stairsUp := by
  obtain ⟨l, h⟩ := applyMsgs_shape cfg ms gs
  rw [h]

theorem applyMsgs_stairsDown (cfg : Config) (ms : List String) (gs : GameState) :
    (applyMsgs cfg gs ms).stairsDown = gs.stairsDown := by
  obtain ⟨l, h⟩ := applyMsgs_shape cfg ms gs
  rw [h]

theorem applyMsgs_explored (cfg : Config) (ms : List String) (gs : GameState) :
    (applyMsgs cfg gs ms).explored = gs.explored := by
  obtain ⟨l, h⟩ := applyMsgs_shape cfg ms gs
  rw [h]

theorem applyMsgs_visible (cfg : Config) (ms : List String) (gs : GameState) :
    (applyMsgs cfg gs ms).visible = gs.visible := by
  obtain ⟨l, h⟩ := applyMsgs_shape cfg ms gs
  rw [h]

theorem updateFov_player (C : Collabs) (gs : GameState) :
    (updateFov C gs).player = gs.player := rfl

theorem updateFov_traps (C : Collabs) (gs : GameState) :
    (updateFov C gs).traps = gs.traps := rfl

theorem updateFov_items (C : Collabs) (gs : GameState) :
    (updateFov C gs).items = gs.items := rfl

theorem updateFov_enemies (C : Collabs) (gs : GameState) :
    (updateFov C gs).enemies = gs.enemies := rfl

theorem updateFov_map (C : Collabs) (gs : GameState) :
    (updateFov C gs).map = gs.map := rfl

theorem updateFov_level (C : Collabs) (gs : GameState) :
    (updateFov C gs).currentLevel = gs.currentLevel := rfl

theorem updateFov_messages (C : Collabs) (gs : GameState) :
    (updateFov C gs).messages = gs.messages := rfl

theorem setPlayerHp_pos (p : Player) (v : Int) : (setPlayerHp p v).pos = p.pos := rfl

theorem tickTempEffects_pos (cfg : Config) (gs : GameState) :
    (tickTempEffects cfg gs).player.pos = gs.player.pos := by
  unfold tickTempEffects
  cases h : (updateTemporaryEffects gs.player.st).2 <;> simp [h, addMessage_player]

theorem tickTempEffects_traps (cfg : Config) (gs : GameState) :
    (tickTempEffects cfg gs).traps = gs.traps := by
  unfold tickTempEffects
  cases h : (updateTemporaryEffects gs.player.st).2 <;> simp [h, addMessage_traps]

theorem tickTempEffects_items (cfg : Config) (gs : GameState) :
    (tickTempEffects cfg gs).items = gs.items := by
  unfold tickTempEffects
  cases h : (updateTemporaryEffects gs.player.st).2 <;> simp [h, addMessage_items]

theorem tickTempEffects_enemies (cfg : Config) (gs : GameState) :
    (tickTempEffects cfg gs).enemies = gs.enemies := by
  unfold tickTempEffects
  cases h : (updateTemporaryEffects gs.player.st).2 <;> simp [h, addMessage_enemies]

theorem tickTempEffects_map (cfg : Config) (gs : GameState) :
    (tickTempEffects cfg gs).map = gs.map := by
  unfold tickTempEffects
  cases h : (updateTemporaryEffects gs.player.st).2 <;> simp [h, addMessage_map]

theorem tickTempEffects_level (cfg : Config) (gs : GameState) :
    (tickTempEffects cfg gs).currentLevel = gs.currentLevel := by
  unfold tickTempEffects
  cases h : (updateTemporaryEffects gs.player.st).2 <;> simp [h, addMessage_level]

theorem enemyPass_nil (C : Collabs) (g : List (List Char)) (w h : Nat) (p : Player) :
    enemyPass C g w h p [] = ⟨[], [], p, [], false⟩ := rfl

theorem enemyPass_cons (C : Collabs) (g : List (List Char)) (w h : Nat) (p : Player)
    (e : Enemy) (rest : List Enemy) :
    enemyPass C g w h p (e :: rest) =
      if e.is_alive then
        if (setPlayerHp p (C.enemyTakeTurn e p g w h).2.1).is_alive then
          ⟨(C.enemyTakeTurn e p g w h).1 ::
              (enemyPass C g w h (setPlayerHp p (C.enemyTakeTurn e p g w h).2.1) rest).updated,
           (enemyPass C g w h (setPlayerHp p (C.enemyTakeTurn e p g w h).2.1) rest).toRemove,
           (enemyPass C g w h (setPlayerHp p (C.enemyTakeTurn e p g w h).2.1) rest).player,
           optMsg (C.enemyTakeTurn e p g w h).2.2 ++
              (enemyPass C g w h (setPlayerHp p (C.enemyTakeTurn e p g w h).2.1) rest).msgs,
           (enemyPass C g w h (setPlayerHp p (C.enemyTakeTurn e p g w h).2.1) rest).died⟩
        else
          ⟨(C.enemyTakeTurn e p g w h).1 :: rest, [],
           setPlayerHp p (C.enemyTakeTurn e p g w h).2.1,
           optMsg (C.enemyTakeTurn e p g w h).2.2, true⟩
      else
        ⟨e :: (enemyPass C g w h p rest).updated,
         e :: (enemyPass C g w h p rest).toRemove,
         (enemyPass C g w h p rest).player,
         (enemyPass C g w h p rest).msgs,
         (enemyPass C g w h p rest).died⟩ := rfl

theorem enemyPass_pos (C : Collabs) (g : List (List Char)) (w h : Nat) :
    ∀ (l : List Enemy) (p : Player), (enemyPass C g w h p l).player.pos = p.pos := by
  intro l
  induction l with
  | nil => intro p; rfl
  | cons e rest ih =>
    intro p
    rw [enemyPass_cons]
    cases hae : e.is_alive
    · simp only [Bool.false_eq_true, if_false]
      exact ih p
    · simp only [if_true]
      cases hp2 : (setPlayerHp p (C.enemyTakeTurn e p g w h).2.1).is_alive
      · simp only [Bool.false_eq_true, if_false]
        exact setPlayerHp_pos p _
      · simp only [if_true]
        rw [ih (setPlayerHp p (C.enemyTakeTurn e p g w h).2.1)]
        exact setPlayerHp_pos p _

theorem enemyPass_toRemove_dead (C : Collabs) (g : List (List Char)) (w h : Nat) :
    ∀ (l : List Enemy) (p : Player) (x : Enemy),
      x ∈ (enemyPass C g w h p l).toRemove → x.is_alive = false := by
  intro l
  induction l with
  | nil => intro p x hx; simp [enemyPass_nil] at hx
  | cons e rest ih =>
    intro p x hx
    rw [enemyPass_cons] at hx
    cases hae : e.is_alive
    · rw [hae] at hx
      simp only [Bool.false_eq_true, if_false] at hx
      rcases List.mem_cons.mp hx with h1 | h2
      · rw [h1]; exact hae
      · exact ih p x h2
    · rw [hae] at hx
      simp only [if_true] at hx
      cases hp2 : (setPlayerHp p (C.enemyTakeTurn e p g w h).2.1).is_alive
      · rw [hp2] at hx
        simp only [Bool.false_eq_true, if_false] at hx
        simp at hx
      · rw [hp2] at hx
        simp only [if_true] at hx
        exact ih _ x hx

theorem enemyPass_append_died (C : Collabs) (g : List (List Char)) (w h : Nat) :
    ∀ (l1 : List Enemy) (p : Player) (l2 : List Enemy),
      (enemyPass C g w h p l1).died = true →
      enemyPass C g w h p (l1 ++ l2) =
        ⟨(enemyPass C g w h p l1).updated ++ l2,
         (enemyPass C g w h p l1).toRemove,
         (enemyPass C g w h p l1).player,
         (enemyPass C g w h p l1).msgs, true⟩ := by
  intro l1
  induction l1 with
  | nil => intro p l2 hd; simp [enemyPass_nil] at hd
  | cons e rest ih =>
    intro p l2 hd
    rw [enemyPass_cons] at hd
    rw [List.cons_append]
    simp only [enemyPass_cons]
    cases hae : e.is_alive
    · rw [hae] at hd
      simp only [Bool.false_eq_true, if_false] at hd ⊢
      have hrec := ih p l2 hd
      rw [hrec]
      simp
    · rw [hae] at hd
      simp only [if_true] at hd ⊢
      cases hp2 : (setPlayerHp p (C.enemyTakeTurn e p g w h).2.1).is_alive
      · rw [hp2] at hd
        simp only [Bool.false_eq_true, if_false] at hd ⊢
        simp
      · rw [hp2] at hd
        simp only [if_true] at hd ⊢
        have hrec := ih _ l2 hd
        rw [hrec]
        simp

theorem removeFirst_cons_self {α : Type} [DecidableEq α] (a : α) (l : List α) :
    removeFirst (a :: l) a = l := by simp [removeFirst]

theorem removeFirst_cons_ne {α : Type} [DecidableEq α] (a x : α) (l : List α) (h : ¬ a = x) :
    removeFirst (a :: l) x = a :: removeFirst l x := by simp [removeFirst, h]

theorem foldl_removeFirst_cons {α : Type} [DecidableEq α] (a : α) :
    ∀ (rem l : List α), (∀ r ∈ rem, ¬ r = a) →
      List.foldl removeFirst (a :: l) rem = a :: List.foldl removeFirst l rem := by
  intro rem
  induction rem with
  | nil => intro l h; rfl
  | cons r rs ih =>
    intro l h
    have h1 : ¬ a = r := fun he => h r (by simp) he.symm
    calc List.foldl removeFirst (a :: l) (r :: rs)
        = List.foldl removeFirst (removeFirst (a :: l) r) rs := rfl
      _ = List.foldl removeFirst (a :: removeFirst l r) rs := by
            rw [removeFirst_cons_ne a r l h1]
      _ = a :: List.foldl removeFirst (removeFirst l r) rs :=
            ih (removeFirst l r) (fun q hq => h q (List.mem_cons_of_mem r hq))
      _ = a :: List.foldl removeFirst l (r :: rs) := rfl

theorem enemyPass_purge (C : Collabs) (g : List (List Char)) (w h : Nat)
    (hAlive : ∀ (e : Enemy) (q : Player), (C.enemyTakeTurn e q g w h).1.is_alive = true) :
    ∀ (l : List Enemy) (p : Player), (enemyPass C g w h p l).died = false →
      ∀ x ∈ List.foldl removeFirst (enemyPass C g w h p l).updated
          (enemyPass C g w h p l).toRemove,
        x.is_alive = true := by
  intro l
  induction l with
  | nil => intro p hd x hx; simp [enemyPass_nil] at hx
  | cons e rest ih =>
    intro p hd x hx
    rw [enemyPass_cons] at hd hx
    cases hae : e.is_alive
    · rw [hae] at hd hx
      simp only [Bool.false_eq_true, if_false] at hd hx
      have hstep : List.foldl removeFirst (e :: (enemyPass C g w h p rest).updated)
          (e :: (enemyPass C g w h p rest).toRemove)
          = List.foldl removeFirst (enemyPass C g w h p rest).updated
              (enemyPass C g w h p rest).toRemove := by
        have h0 : List.foldl removeFirst (e :: (enemyPass C g w h p rest).updated)
            (e :: (enemyPass C g w h p rest).toRemove)
            = List.foldl removeFirst
                (removeFirst (e :: (enemyPass C g w h p rest).updated) e)
                (enemyPass C g w h p rest).toRemove := rfl
        rw [h0, removeFirst_cons_self]
      rw [hstep] at hx
      exact ih p hd x hx
    · rw [hae] at hd hx
      simp only [if_true] at hd hx
      cases hp2 : (setPlayerHp p (C.enemyTakeTurn e p g w h).2.1).is_alive
      · rw [hp2] at hd
        simp only [Bool.false_eq_true, if_false] at hd
        simp at hd
      · rw [hp2] at hd hx
        simp only [if_true] at hd hx
        have hne : ∀ q ∈ (enemyPass C g w h
            (setPlayerHp p (C.enemyTakeTurn e p g w h).2.1) rest).toRemove,
            ¬ q = (C.enemyTakeTurn e p g w h).1 := by
          intro q hq heq
          have hdq := enemyPass_toRemove_dead C g w h rest _ q hq
          rw [heq, hAlive e p] at hdq
          simp at hdq
        rw [foldl_removeFirst_cons _ _ _ hne] at hx
        rcases List.mem_cons.mp hx with h1 | h2
        · rw [h1]; exact hAlive e p
        · exact ih _ hd x h2

theorem enemyTurn_traps (C : Collabs) (cfg : Config) (gs : GameState) :
    (enemyTurn C cfg gs).traps = gs.traps := by
  simp only [enemyTurn]
  split
  · simp [applyMsgs_traps]
  · split
    · split <;> simp [tickTempEffects_traps, addMessage_traps, applyMsgs_traps]
    · simp [tickTempEffects_traps, applyMsgs_traps]

theorem enemyTurn_items (C : Collabs) (cfg : Config) (gs : GameState) :
    (enemyTurn C cfg gs).items = gs.items := by
  simp only [enemyTurn]
  split
  · simp [applyMsgs_items]
  · split
    · split <;> simp [tickTempEffects_items, addMessage_items, applyMsgs_items]
    · simp [tickTempEffects_items, applyMsgs_items]

theorem enemyTurn_map (C : Collabs) (cfg : Config) (gs : GameState) :
    (enemyTurn C cfg gs).map = gs.map := by
  simp only [enemyTurn]
  split
  · simp [applyMsgs_map]
  · split
    · split <;> simp [tickTempEffects_map, addMessage_map, applyMsgs_map]
    · simp [tickTempEffects_map, applyMsgs_map]

theorem enemyTurn_level (C : Collabs) (cfg : Config) (gs : GameState) :
    (enemyTurn C cfg gs).currentLevel = gs.currentLevel := by
  simp only [enemyTurn]
  split
  · simp [applyMsgs_level]
  · split
    · split <;> simp [tickTempEffects_level, addMessage_level, applyMsgs_level]
    · simp [tickTempEffects_level, applyMsgs_level]

theorem enemyTurn_pos (C : Collabs) (cfg : Config) (gs : GameState) :
    (enemyTurn C cfg gs).player.pos = gs.player.pos := by
  simp only [enemyTurn]
  have hpos := enemyPass_pos C gs.map gs.width gs.height gs.enemies gs.player
  split
  · rw [applyMsgs_player]
    exact hpos
  · split
    · split
      all_goals
        simp only [tickTempEffects_pos, addMessage_player, applyMsgs_player]
        exact hpos
    · simp only [tickTempEffects_pos, applyMsgs_player]
      exact hpos

theorem playerAttackEnemy_traps (C : Collabs) (cfg : Config) (gs : GameState) (te : Enemy) :
    (playerAttackEnemy C cfg gs te).traps = gs.traps := by
  simp only [playerAttackEnemy]
  split
  · simp [addMessage_traps]
  · split <;> simp [addMessage_traps]

theorem playerAttackEnemy_items (C : Collabs) (cfg : Config) (gs : GameState) (te : Enemy) :
    (playerAttackEnemy C cfg gs te).items = gs.items := by
  simp only [playerAttackEnemy]
  split
  · simp [addMessage_items]
  · split <;> simp [addMessage_items]

theorem playerAttackEnemy_map (C : Collabs) (cfg : Config) (gs : GameState) (te : Enemy) :
    (playerAttackEnemy C cfg gs te).map = gs.map := by
  simp only [playerAttackEnemy]
  split
  · simp [addMessage_map]
  · split <;> simp [addMessage_map]

theorem playerAttackEnemy_level (C : Collabs) (cfg : Config) (gs : GameState) (te : Enemy) :
    (playerAttackEnemy C cfg gs te).currentLevel = gs.currentLevel := by
  simp only [playerAttackEnemy]
  split
  · simp [addMessage_level]
  · split <;> simp [addMessage_level]

theorem playerAttackEnemy_pos (C : Collabs) (cfg : Config) (gs : GameState) (te : Enemy) :
    (playerAttackEnemy C cfg gs te).player.pos = gs.player.pos := by
  simp only [playerAttackEnemy]
  split
  · simp [addMessage_player]
  · split <;> simp [addMessage_player]

theorem checkPickupItem_map (cfg : Config) (gs : GameState) :
    (checkPickupItem cfg gs).map = gs.map := by
  simp only [checkPickupItem]
  simp [applyMsgs_map]

theorem checkPickupItem_traps (cfg : Config) (gs : GameState) :
    (checkPickupItem cfg gs).traps = gs.traps := by
  simp only [checkPickupItem]
  simp [applyMsgs_traps]

theorem checkPickupItem_enemies (cfg : Config) (gs : GameState) :
    (checkPickupItem cfg gs).enemies = gs.enemies := by
  simp only [checkPickupItem]
  simp [applyMsgs_enemies]

theorem foldl_removeFirst_cons_self {α : Type} [DecidableEq α] (a : α) (l rem : List α) :
    List.foldl removeFirst (a :: l) (a :: rem) = List.foldl removeFirst l rem := by
  have h0 : List.foldl removeFirst (a :: l) (a :: rem)
      = List.foldl removeFirst (removeFirst (a :: l) a) rem := rfl
  rw [h0, removeFirst_cons_self]

theorem pickupScan_cons_currency (pos : Position) (it : Item) (rest : List Item) (st : PStats)
    (hco : it.pos.x = pos.x ∧ it.pos.y = pos.y) (hcur : it.itemCategory = "currency") :
    pickupScan pos (it :: rest) st =
      ((pickupScan pos rest { st with gold := st.gold + it.value }).1,
       ("拾取了" ++ it.name) :: (pickupScan pos rest { st with gold := st.gold + it.value }).2.1,
       it :: (pickupScan pos rest { st with gold := st.gold + it.value }).2.2) := by
  simp [pickupScan, hco.1, hco.2, hcur]

theorem pickupScan_cons_add (pos : Position) (it : Item) (rest : List Item) (st : PStats)
    (hco : it.pos.x = pos.x ∧ it.pos.y = pos.y) (hcur : ¬ it.itemCategory = "currency")
    (hfree : st.inventory.length < st.maxInventory) :
    pickupScan pos (it :: rest) st =
      ((pickupScan pos rest { st with inventory := st.inventory ++ [it] }).1,
       ("拾取了" ++ it.name) ::
         (pickupScan pos rest { st with inventory := st.inventory ++ [it] }).2.1,
       it :: (pickupScan pos rest { st with inventory := st.inventory ++ [it] }).2.2) := by
  simp [pickupScan, hco.1, hco.2, hcur, hfree, addToInventory]

theorem pickupScan_cons_full (pos : Position) (it : Item) (rest : List Item) (st : PStats)
    (hco : it.pos.x = pos.x ∧ it.pos.y = pos.y) (hcur : ¬ it.itemCategory = "currency")
    (hfree : ¬ st.inventory.length < st.maxInventory) :
    pickupScan pos (it :: rest) st =
      ((pickupScan pos rest st).1,
       ("物品栏已满！") :: (pickupScan pos rest st).2.1,
       (pickupScan pos rest st).2.2) := by
  simp [pickupScan, hco.1, hco.2, hcur, hfree]

theorem pickupScan_cons_far (pos : Position) (it : Item) (rest : List Item) (st : PStats)
    (hco : ¬ (it.pos.x = pos.x ∧ it.pos.y = pos.y)) :
    pickupScan pos (it :: rest) st =
      ((pickupScan pos rest st).1, (pickupScan pos rest st).2.1,
       (pickupScan pos rest st).2.2) := by
  simp only [pickupScan, if_neg hco]

theorem pickupRule_cons_currency (pos : Position) (it : Item) (rest : List Item) (st : PStats)
    (hco : it.pos.x = pos.x ∧ it.pos.y = pos.y) (hcur : it.itemCategory = "currency") :
    pickupRule pos (it :: rest) st =
      ((pickupRule pos rest { st with gold := st.gold + it.value }).1,
       ("拾取了" ++ it.name) :: (pickupRule pos rest { st with gold := st.gold + it.value }).2.1,
       (pickupRule pos rest { st with gold := st.gold + it.value }).2.2) := by
  simp [pickupRule, hco.1, hco.2, hcur]

theorem pickupRule_cons_add (pos : Position) (it : Item) (rest : List Item) (st : PStats)
    (hco : it.pos.x = pos.x ∧ it.pos.y = pos.y) (hcur : ¬ it.itemCategory = "currency")
    (hfree : st.inventory.length < st.maxInventory) :
    pickupRule pos (it :: rest) st =
      ((pickupRule pos rest { st with inventory := st.inventory ++ [it] }).1,
       ("拾取了" ++ it.name) ::
         (pickupRule pos rest { st with inventory := st.inventory ++ [it] }).2.1,
       (pickupRule pos rest { st with inventory := st.inventory ++ [it] }).2.2) := by
  simp [pickupRule, hco.1, hco.2, hcur, hfree]

theorem pickupRule_cons_full (pos : Position) (it : Item) (rest : List Item) (st : PStats)
    (hco : it.pos.x = pos.x ∧ it.pos.y = pos.y) (hcur : ¬ it.itemCategory = "currency")
    (hfree : ¬ st.inventory.length < st.maxInventory) :
    pickupRule pos (it :: rest) st =
      ((pickupRule pos rest st).1,
       ("物品栏已满！") :: (pickupRule pos rest st).2.1,
       it :: (pickupRule pos rest st).2.2) := by
  simp [pickupRule, hco.1, hco.2, hcur, hfree]

theorem pickupRule_cons_far (pos : Position) (it : Item) (rest : List Item) (st : PStats)
    (hco : ¬ (it.pos.x = pos.x ∧ it.pos.y = pos.y)) :
    pickupRule pos (it :: rest) st =
      ((pickupRule pos rest st).1, (pickupRule pos rest st).2.1,
       it :: (pickupRule pos rest st).2.2) := by
  simp only [pickupRule, if_neg hco]

theorem pickupScan_rem_currency (pos : Position) :
    ∀ (l : List Item) (st : PStats), st.maxInventory ≤ st.inventory.length →
      ∀ r ∈ (pickupScan pos l st).2.2, r.itemCategory = "currency" := by
  intro l
  induction l with
  | nil => intro st hfull r hr; simp [pickupScan] at hr
  | cons it rest ih =>
    intro st hfull r hr
    by_cases hco : it.pos.x = pos.x ∧ it.pos.y = pos.y
    · by_cases hcur : it.itemCategory = "currency"
      · rw [pickupScan_cons_currency pos it rest st hco hcur] at hr
        rcases List.mem_cons.mp hr with h1 | h2
        · rw [h1]; exact hcur
        · exact ih { st with gold := st.gold + it.value } hfull r h2
      · have hnfree : ¬ st.inventory.length < st.maxInventory := by omega
        rw [pickupScan_cons_full pos it rest st hco hcur hnfree] at hr
        exact ih st hfull r hr
    · rw [pickupScan_cons_far pos it rest st hco] at hr
      exact ih st hfull r hr

theorem pickupScan_rem_colocated (pos : Position) :
    ∀ (l : List Item) (st : PStats),
      ∀ r ∈ (pickupScan pos l st).2.2, r.pos.x = pos.x ∧ r.pos.y = pos.y := by
  intro l
  induction l with
  | nil => intro st r hr; simp [pickupScan] at hr
  | cons it rest ih =>
    intro st r hr
    by_cases hco : it.pos.x = pos.x ∧ it.pos.y = pos.y
    · by_cases hcur : it.itemCategory = "currency"
      · rw [pickupScan_cons_currency pos it rest st hco hcur] at hr
        rcases List.mem_cons.mp hr with h1 | h2
        · rw [h1]; exact hco
        · exact ih { st with gold := st.gold + it.value } r h2
      · by_cases hfree : st.inventory.length < st.maxInventory
        · rw [pickupScan_cons_add pos it rest st hco hcur hfree] at hr
          rcases List.mem_cons.mp hr with h1 | h2
          · rw [h1]; exact hco
          · exact ih { st with inventory := st.inventory ++ [it] } r h2
        · rw [pickupScan_cons_full pos it rest st hco hcur hfree] at hr
          exact ih st r hr
    · rw [pickupScan_cons_far pos it rest st hco] at hr
      exact ih st r hr

theorem pickupScan_rule (pos : Position) :
    ∀ (l : List Item) (st : PStats),
      (pickupScan pos l st).1 = (pickupRule pos l st).1 ∧
      (pickupScan pos l st).2.1 = (pickupRule pos l st).2.1 ∧
      List.foldl removeFirst l (pickupScan pos l st).2.2 = (pickupRule pos l st).2.2 := by
  intro l
  induction l with
  | nil => intro st; exact ⟨rfl, rfl, rfl⟩
  | cons it rest ih =>
    intro st
    by_cases hco : it.pos.x = pos.x ∧ it.pos.y = pos.y
    · by_cases hcur : it.itemCategory = "currency"
      · obtain ⟨ih1, ih2, ih3⟩ := ih { st with gold := st.gold + it.value }
        rw [pickupScan_cons_currency pos it rest st hco hcur,
            pickupRule_cons_currency pos it rest st hco hcur]
        refine ⟨ih1, ?_, ?_⟩
        · show ("拾取了" ++ it.name) :: (pickupScan pos rest _).2.1
            = ("拾取了" ++ it.name) :: (pickupRule pos rest _).2.1
          rw [ih2]
        · show List.foldl removeFirst (it :: rest)
              (it :: (pickupScan pos rest { st with gold := st.gold + it.value }).2.2)
            = (pickupRule pos rest { st with gold := st.gold + it.value }).2.2
          rw [foldl_removeFirst_cons_self]
          exact ih3
      · by_cases hfree : st.inventory.length < st.maxInventory
        · obtain ⟨ih1, ih2, ih3⟩ := ih { st with inventory := st.inventory ++ [it] }
          rw [pickupScan_cons_add pos it rest st hco hcur hfree,
              pickupRule_cons_add pos it rest st hco hcur hfree]
          refine ⟨ih1, ?_, ?_⟩
          · show ("拾取了" ++ it.name) :: (pickupScan pos rest _).2.1
              = ("拾取了" ++ it.name) :: (pickupRule pos rest _).2.1
            rw [ih2]
          · show List.foldl removeFirst (it :: rest)
                (it :: (pickupScan pos rest { st with inventory := st.inventory ++ [it] }).2.2)
              = (pickupRule pos rest { st with inventory := st.inventory ++ [it] }).2.2
            rw [foldl_removeFirst_cons_self]
            exact ih3
        · obtain ⟨ih1, ih2, ih3⟩ := ih st
          have hfull : st.maxInventory ≤ st.inventory.length := by omega
          have hne : ∀ r ∈ (pickupScan pos rest st).2.2, ¬ r = it := by
            intro r hr he
            exact hcur (he ▸ pickupScan_rem_currency pos rest st hfull r hr)
          rw [pickupScan_cons_full pos it rest st hco hcur hfree,
              pickupRule_cons_full pos it rest st hco hcur hfree]
          refine ⟨ih1, ?_, ?_⟩
          · show ("物品栏已满！") :: (pickupScan pos rest st).2.1
              = ("物品栏已满！") :: (pickupRule pos rest st).2.1
            rw [ih2]
          · show List.foldl removeFirst (it :: rest) ((pickupScan pos rest st).2.2)
              = it :: (pickupRule pos rest st).2.2
            rw [foldl_removeFirst_cons it ((pickupScan pos rest st).2.2) rest hne]
            rw [ih3]
    · obtain ⟨ih1, ih2, ih3⟩ := ih st
      have hne : ∀ r ∈ (pickupScan pos rest st).2.2, ¬ r = it := by
        intro r hr he
        exact hco (he ▸ pickupScan_rem_colocated pos rest st r hr)
      rw [pickupScan_cons_far pos it rest st hco, pickupRule_cons_far pos it rest st hco]
      refine ⟨ih1, ih2, ?_⟩
      show List.foldl removeFirst (it :: rest) ((pickupScan pos rest st).2.2)
        = it :: (pickupRule pos rest st).2.2
      rw [foldl_removeFirst_cons it ((pickupScan pos rest st).2.2) rest hne]
      rw [ih3]

theorem addMessage_messages_eq (cfg : Config) (gs1 gs2 : GameState) (m : String)
    (h : gs1.messages = gs2.messages) :
    (addMessage cfg gs1 m).messages = (addMessage cfg gs2 m).messages := by
  unfold addMessage
  simp [h]

theorem applyMsgs_messages_eq (cfg : Config) :
    ∀ (ms : List String) (gs1 gs2 : GameState), gs1.messages = gs2.messages →
      (applyMsgs cfg gs1 ms).messages = (applyMsgs cfg gs2 ms).messages := by
  intro ms
  induction ms with
  | nil => intro gs1 gs2 h; exact h
  | cons m rest ih =>
    intro gs1 gs2 h
    exact ih (addMessage cfg gs1 m) (addMessage cfg gs2 m) (addMessage_messages_eq cfg gs1 gs2 m h)

/-- C4: for every directional move whose target tile holds no living
enemy, is not walkable and carries a symbol that is neither staircase,
the handler returns the engine unchanged: the world state is untouched,
no message is logged, and no enemy turn runs. -/
theorem c4_blocked_move_noop (C : Collabs) (cfg : Config) (e : Engine) (a : Action)
    (dx dy : Int) (t : Char)
    (hdelta : getMovementDelta a = some (dx, dy))
    (hne : getEnemyAt e.gs.enemies (e.gs.player.pos.x + dx) (e.gs.player.pos.y + dy) = none)
    (hnw : C.isWalkable e.gs.map (e.gs.player.pos.x + dx) (e.gs.player.pos.y + dy) = false)
    (ht : pyTile e.gs.map (e.gs.player.pos.x + dx) (e.gs.player.pos.y + dy) = some t)
    (hgt : ¬ t = '>') (hlt : ¬ t = '<') :
    handleGameAction C cfg e a = some e := by
  simp only [handleGameAction, hdelta]
  simp only [handleMove, hne, hnw, ht]
  simp [hgt, hlt]

/-- Witness for C4: on the test grid, a move from (1,1) into the wall at
(1,0) leaves the engine untouched. -/
theorem c4_witness : handleGameAction testCollabs testCfg baseEngine Action.moveUp
    = some baseEngine :=
  c4_blocked_move_noop testCollabs testCfg baseEngine Action.moveUp 0 (-1) '#'
    rfl rfl (by decide) rfl (by decide) (by decide)

/-- C5: the source pickup scan agrees with the spec's pickup rule: after
a move, each co-located item is evaluated independently — currency is
added to gold and removed unconditionally, a non-currency item is added
to inventory and removed exactly when the inventory has free capacity,
and otherwise the inventory-full message is logged while the item stays
on the floor with the inventory unchanged; the player's position and the
relative order of everything else are untouched. -/
theorem c5_pickup_refinement (cfg : Config) (gs : GameState) :
    (checkPickupItem cfg gs).player.st
      = (pickupRule gs.player.pos gs.items gs.player.st).1 ∧
    (checkPickupItem cfg gs).player.pos = gs.player.pos ∧
    (checkPickupItem cfg gs).items
      = (pickupRule gs.player.pos gs.items gs.player.st).2.2 ∧
    (checkPickupItem cfg gs).messages
      = (applyMsgs cfg gs (pickupRule gs.player.pos gs.items gs.player.st).2.1).messages := by
  obtain ⟨h1, h2, h3⟩ := pickupScan_rule gs.player.pos gs.items gs.player.st
  refine ⟨?_, ?_, ?_, ?_⟩
  · simp [checkPickupItem, applyMsgs_player, h1]
  · simp [checkPickupItem, applyMsgs_player]
  · simp only [checkPickupItem]
    rw [applyMsgs_items]
    exact h3
  · simp only [checkPickupItem]
    have hm := applyMsgs_messages_eq cfg
      (pickupScan gs.player.pos gs.items gs.player.st).2.1
      { gs with player := { gs.player with
          st := (pickupScan gs.player.pos gs.items gs.player.st).1 } }
      gs rfl
    rw [hm, h2]

/-- C6: descending with the floor index at the configured final floor
stops the loop (victory) and leaves the world untouched — in particular
no floor is generated; descending from any lower floor regenerates the
world for the next floor down. -/
theorem c6_descend (C : Collabs) (cfg : Config) (e : Engine) :
    (e.gs.currentLevel = cfg.totalLevels →
      goDownstairs C cfg e = { e with running := false }) ∧
    (e.gs.currentLevel < cfg.totalLevels →
      goDownstairs C cfg e
        = { e with gs := generateLevel C cfg e.gs (e.gs.currentLevel + 1) }) := by
  constructor
  · intro h
    unfold goDownstairs
    rw [if_pos (le_of_eq h.symm)]
  · intro h
    unfold goDownstairs
    rw [if_neg (by omega)]

/-- Witness for C6: on floor 5 of 5 descending stops the loop without
generation; on floor 1 it regenerates floor 2. -/
theorem c6_witness :
    goDownstairs testCollabs testCfg { baseEngine with gs := { baseGs with currentLevel := 5 } }
      = { { baseEngine with gs := { baseGs with currentLevel := 5 } } with running := false } ∧
    goDownstairs testCollabs testCfg baseEngine
      = { baseEngine with gs := generateLevel testCollabs testCfg baseGs (1 + 1) } := by
  constructor
  · exact (c6_descend testCollabs testCfg _).1 rfl
  · exact (c6_descend testCollabs testCfg baseEngine).2 (by decide)

/-- C8: one Status Effect Ticker invocation on a remaining duration of
one sets the duration to zero, reverts the +5 attack bonus floored at
three, and reports the expiry message exactly once; invocations with the
counter already at zero or with the attribute absent change nothing and
report nothing. -/
theorem c8_buff_expiry (st : PStats) :
    updateTemporaryEffects { st with tempAtkDuration := some 1 }
      = ({ st with tempAtkDuration := some 0, atk := max 3 (st.atk - 5) },
         some ("力量药水的效果消失了。")) ∧
    updateTemporaryEffects { st with tempAtkDuration := some 0 }
      = ({ st with tempAtkDuration := some 0 }, none) ∧
    updateTemporaryEffects { st with tempAtkDuration := none }
      = ({ st with tempAtkDuration := none }, none) := by
  refine ⟨?_, ?_, ?_⟩ <;> simp [updateTemporaryEffects]

/-- C9: a floor transition keeps the player's statistics block
(stats, inventory, gold) unchanged, resets only the player's position to
the generator-provided start, and replaces the map, rooms, dimensions,
stairs, masks, enemies, items and traps wholesale from the fresh
generation. -/
theorem c9_level_transition_frame (C : Collabs) (cfg : Config) (gs : GameState) (level : Nat) :
    (generateLevel C cfg gs level).player.st = gs.player.st ∧
    (generateLevel C cfg gs level).player.pos = (C.generate level).playerStart ∧
    (generateLevel C cfg gs level).currentLevel = level ∧
    (generateLevel C cfg gs level).map = (C.generate level).map ∧
    (generateLevel C cfg gs level).rooms = (C.generate level).rooms ∧
    (generateLevel C cfg gs level).width = (C.generate level).width ∧
    (generateLevel C cfg gs level).height = (C.generate level).height ∧
    (generateLevel C cfg gs level).stairsUp = (C.generate level).stairsUp ∧
    (generateLevel C cfg gs level).stairsDown = (C.generate level).stairsDown ∧
    (generateLevel C cfg gs level).enemies
      = (C.spawnEnemies level (C.generate level) (C.generate level).playerStart).1 ∧
    (generateLevel C cfg gs level).items = C.spawnItems level (C.generate level).map ∧
    (generateLevel C cfg gs level).traps
      = C.generateTraps (C.generate level).map (C.generate level).width
          (C.generate level).height level (C.generate level).playerStart ∧
    (generateLevel C cfg gs level).visible
      = C.computeVisible (C.generate level).map (C.generate level).playerStart
          (C.generate level).width (C.generate level).height ∧
    (generateLevel C cfg gs level).explored
      = C.updateExplored
          (C.computeVisible (C.generate level).map (C.generate level).playerStart
            (C.generate level).width (C.generate level).height)
          (falseMask (C.generate level).width (C.generate level).height) := by
  simp [generateLevel, updateFov, addMessage_player, addMessage_items, addMessage_enemies,
    addMessage_traps, addMessage_map, addMessage_level, addMessage_width, addMessage_height,
    addMessage_rooms, addMessage_stairsUp, addMessage_stairsDown, addMessage_visible,
    addMessage_explored, applyMsgs_player, applyMsgs_items, applyMsgs_enemies, applyMsgs_traps,
    applyMsgs_map, applyMsgs_level, applyMsgs_width, applyMsgs_height, applyMsgs_rooms,
    applyMsgs_stairsUp, applyMsgs_stairsDown, applyMsgs_visible, applyMsgs_explored]

/-- C1: a directional move onto a tile occupied by a living enemy
resolves exactly one attack against that enemy — with XP grant, level-up
check and synchronous removal on death, as spelled out by
playerAttackEnemy — followed by exactly one enemy-turn cycle and a
visibility recomputation; the player's position, the item collection,
the trap collection and the floor index are unchanged, so no trap,
pickup or staircase check happens that turn. -/
theorem c1_attack_branch (C : Collabs) (cfg : Config) (e : Engine) (a : Action)
    (dx dy : Int) (te : Enemy)
    (hdelta : getMovementDelta a = some (dx, dy))
    (hen : getEnemyAt e.gs.enemies (e.gs.player.pos.x + dx) (e.gs.player.pos.y + dy)
      = some te) :
    handleGameAction C cfg e a
      = some { e with gs := updateFov C (enemyTurn C cfg (playerAttackEnemy C cfg e.gs te)) } ∧
    (updateFov C (enemyTurn C cfg (playerAttackEnemy C cfg e.gs te))).player.pos
      = e.gs.player.pos ∧
    (updateFov C (enemyTurn C cfg (playerAttackEnemy C cfg e.gs te))).items = e.gs.items ∧
    (updateFov C (enemyTurn C cfg (playerAttackEnemy C cfg e.gs te))).traps = e.gs.traps ∧
    (updateFov C (enemyTurn C cfg (playerAttackEnemy C cfg e.gs te))).currentLevel
      = e.gs.currentLevel := by
  refine ⟨?_, ?_, ?_, ?_, ?_⟩
  · simp only [handleGameAction, hdelta]
    simp only [handleMove, hen]
  · rw [updateFov_player, enemyTurn_pos, playerAttackEnemy_pos]
  · rw [updateFov_items, enemyTurn_items, playerAttackEnemy_items]
  · rw [updateFov_traps, enemyTurn_traps, playerAttackEnemy_traps]
  · rw [updateFov_level, enemyTurn_level, playerAttackEnemy_level]

/-- Witness for C1: moving down from (1,1) into the goblin at (1,2)
dispatches to the combat path with the stated frame conditions. -/
theorem c1_witness :
    handleGameAction testCollabs testCfg c1Engine Action.moveDown
      = some { c1Engine with
          gs := updateFov testCollabs
            (enemyTurn testCollabs testCfg
              (playerAttackEnemy testCollabs testCfg c1Engine.gs wGoblin)) } ∧
    (updateFov testCollabs (enemyTurn testCollabs testCfg
        (playerAttackEnemy testCollabs testCfg c1Engine.gs wGoblin))).player.pos
      = c1Engine.gs.player.pos ∧
    (updateFov testCollabs (enemyTurn testCollabs testCfg
        (playerAttackEnemy testCollabs testCfg c1Engine.gs wGoblin))).items
      = c1Engine.gs.items ∧
    (updateFov testCollabs (enemyTurn testCollabs testCfg
        (playerAttackEnemy testCollabs testCfg c1Engine.gs wGoblin))).traps
      = c1Engine.gs.traps ∧
    (updateFov testCollabs (enemyTurn testCollabs testCfg
        (playerAttackEnemy testCollabs testCfg c1Engine.gs wGoblin))).currentLevel
      = c1Engine.gs.currentLevel :=
  c1_attack_branch testCollabs testCfg c1Engine Action.moveDown 0 1 wGoblin rfl rfl

/-- C2: if the sweep over a prefix of the enemy list already leaves the
player dead, the whole enemy turn stops right there: the enemies after
the prefix are untouched and never act, no dead-enemy purge happens, and
neither the poison tick nor the transient-buff tick runs — the result is
exactly the reassembled mid-pass state. -/
theorem c2_enemy_pass_halts (C : Collabs) (cfg : Config) (gs : GameState)
    (l1 l2 : List Enemy) (hsplit : gs.enemies = l1 ++ l2)
    (hdied : (enemyPass C gs.map gs.width gs.height gs.player l1).died = true) :
    enemyTurn C cfg gs =
      applyMsgs cfg
        { gs with
          enemies := (enemyPass C gs.map gs.width gs.height gs.player l1).updated ++ l2,
          player := (enemyPass C gs.map gs.width gs.height gs.player l1).player }
        (enemyPass C gs.map gs.width gs.height gs.player l1).msgs := by
  have happ := enemyPass_append_died C gs.map gs.width gs.height l1 gs.player l2 hdied
  simp only [enemyTurn]
  rw [hsplit, happ]
  simp

/-- Witness for C2: with one hit point left, the goblin's turn kills the
player and the orc after it never acts. -/
theorem c2_witness :
    enemyTurn testCollabs testCfg c2Gs =
      applyMsgs testCfg
        { c2Gs with
          enemies := (enemyPass testCollabs c2Gs.map c2Gs.width c2Gs.height
            c2Gs.player [wGoblin]).updated ++ [wOrc],
          player := (enemyPass testCollabs c2Gs.map c2Gs.width c2Gs.height
            c2Gs.player [wGoblin]).player }
        (enemyPass testCollabs c2Gs.map c2Gs.width c2Gs.height c2Gs.player [wGoblin]).msgs :=
  c2_enemy_pass_halts testCollabs testCfg c2Gs [wGoblin] [wOrc] rfl (by decide)

/-- C7: in an enemy turn whose sweep completes with the player alive, if
the poison tick leaves the player dead — and the trap collaborator
reports a message whenever its tick kills — then the transient-buff tick
does not run: the final statistics block is exactly the post-poison one. -/
theorem c7_poison_death_skips_buffs (C : Collabs) (cfg : Config) (gs : GameState)
    (hdied : (enemyPass C gs.map gs.width gs.height gs.player gs.enemies).died = false)
    (hkill : (C.updatePlayerPoison
        (enemyPass C gs.map gs.width gs.height gs.player gs.enemies).player.st).1.hp ≤ 0)
    (hfaith : ∀ st : PStats,
      (C.updatePlayerPoison st).1.hp ≤ 0 → (C.updatePlayerPoison st).2 ≠ none) :
    (enemyTurn C cfg gs).player.st =
      (C.updatePlayerPoison
        (enemyPass C gs.map gs.width gs.height gs.player gs.enemies).player.st).1 := by
  simp only [enemyTurn, hdied, Bool.false_eq_true, if_false, applyMsgs_player]
  cases hpm : (C.updatePlayerPoison
      (enemyPass C gs.map gs.width gs.height gs.player gs.enemies).player.st).2 with
  | none => exact absurd hpm (hfaith _ hkill)
  | some m =>
    simp only [hpm]
    have hcond : (Player.mk
        (enemyPass C gs.map gs.width gs.height gs.player gs.enemies).player.pos
        (C.updatePlayerPoison
          (enemyPass C gs.map gs.width gs.height gs.player gs.enemies).player.st).1).is_alive
        = false := by
      simp [Player.is_alive]
      omega
    simp [hcond, addMessage_player]

/-- Witness for C7: with two hit points and no enemies, the poison tick
kills the player with a message and the buff tick is skipped. -/
theorem c7_witness :
    (enemyTurn testCollabs testCfg c7Gs).player.st =
      (testCollabs.updatePlayerPoison
        (enemyPass testCollabs c7Gs.map c7Gs.width c7Gs.height
          c7Gs.player c7Gs.enemies).player.st).1 :=
  c7_poison_death_skips_buffs testCollabs testCfg c7Gs (by decide) (by decide)
    (by
      intro st h
      by_cases hc : st.hp ≤ 3
      · simp [testCollabs, hc]
      · exfalso
        simp [testCollabs, hc] at h
        omega)

/-- C3 counterexample: using the offensive scroll from the inventory
kills the goblin, yet when the action has fully resolved the goblin is
still in the enemy collection with its alive flag false — the claim that
no dead entity remains after every player action fails on the
inventory-use path. -/
theorem c3_counterexample :
    (handleInventoryAction testCollabs testCfg c3Engine Action.useItem).gs.enemies
      = [{ wGoblin with hp := 0 }] ∧
    Enemy.is_alive { wGoblin with hp := 0 } = false := by
  constructor
  · rfl
  · rfl

/-- C3 (amended): an enemy killed by inventory-mode item use stays in
the collection exactly as the item-use collaborator left it — no purge
runs in that path; the purge happens in the next enemy-turn pass: when a
pass completes with the player alive and every acting enemy's turn
leaves it alive, the resulting collection holds no dead enemy. -/
theorem c3_amended_purge (C : Collabs) (cfg : Config) :
    (∀ (e : Engine) (it : Item),
      0 ≤ e.selectedItemIndex →
      getInventoryItem e.gs.player.st e.selectedItemIndex = some it →
      it.itemCategory = "consumable" →
      (handleInventoryAction C cfg e Action.useItem).gs.enemies
        = (C.useItem e.gs.player it e.gs.enemies).2.1) ∧
    (∀ gs : GameState,
      (enemyPass C gs.map gs.width gs.height gs.player gs.enemies).died = false →
      (∀ (en : Enemy) (q : Player),
        (C.enemyTakeTurn en q gs.map gs.width gs.height).1.is_alive = true) →
      ∀ x ∈ (enemyTurn C cfg gs).enemies, x.is_alive = true) := by
  constructor
  · intro e it hsel hget hcat
    simp [handleInventoryAction, hsel, hget, hcat, updateFov_enemies, addMessage_enemies]
  · intro gs hdied hAlive x hx
    have hene : (enemyTurn C cfg gs).enemies =
        List.foldl removeFirst
          (enemyPass C gs.map gs.width gs.height gs.player gs.enemies).updated
          (enemyPass C gs.map gs.width gs.height gs.player gs.enemies).toRemove := by
      simp only [enemyTurn, hdied, Bool.false_eq_true, if_false]
      split
      · split <;> simp [tickTempEffects_enemies, addMessage_enemies, applyMsgs_enemies]
      · simp [tickTempEffects_enemies, applyMsgs_enemies]
    rw [hene] at hx
    exact enemyPass_purge C gs.map gs.width gs.height hAlive gs.enemies gs.player hdied x hx

/-- Witness for C3 (amended): the scroll leaves the collaborator's
output list in place unpurged, and an enemy-turn pass over a dead goblin
and a living orc purges the goblin so that everything left, such as the
orc, is alive. -/
theorem c3_amended_witness :
    (handleInventoryAction testCollabs testCfg c3Engine Action.useItem).gs.enemies
      = (testCollabs.useItem c3Engine.gs.player wScroll c3Engine.gs.enemies).2.1 ∧
    Enemy.is_alive wOrc = true := by
  constructor
  · exact (c3_amended_purge testCollabs testCfg).1 c3Engine wScroll (by decide) rfl rfl
  · refine (c3_amended_purge testCollabs testCfg).2 c3bGs (by decide) ?_ wOrc (by decide)
    intro en q
    simp [testCollabs, Enemy.is_alive]

/-- Every call of the post-trap tail of the move branch terminates
normally when the target tile read succeeds. -/
theorem afterTrapStep_some (C : Collabs) (cfg : Config) (e : Engine) (gs : GameState)
    (nx ny : Int) (t : Char) (ht : pyTile gs.map nx ny = some t) :
    ∃ e2, afterTrapStep C cfg e gs nx ny = some e2 := by
  simp only [afterTrapStep]
  rw [checkPickupItem_map, ht]
  by_cases h1 : t = '>'
  · simp [h1]
  · by_cases h2 : t = '<' <;> simp [h1, h2]

/-- C10 counterexample: with the player on the bottom floor tile (1,2)
of the three-row test grid, moving down targets row 3; the target is not
walkable and holds no enemy, so the handler reaches the staircase-symbol
tile read, which indexes past the grid and raises — the move handler
does not terminate normally, refuting the claim that every tile-grid
access stays in bounds for out-of-bounds targets. -/
theorem c10_counterexample :
    handleGameAction testCollabs testCfg c10Engine Action.moveDown = none := rfl

/-- C10 (amended): a directional move whose target coordinates lie
inside the tile grid always terminates normally — every tile read the
handler performs succeeds; only a target outside the grid can make the
staircase-symbol read fail. -/
theorem c10_inbounds_move_terminates (C : Collabs) (cfg : Config) (e : Engine) (a : Action)
    (dx dy : Int) (row : List Char)
    (hdelta : getMovementDelta a = some (dx, dy))
    (hy : 0 ≤ e.gs.player.pos.y + dy)
    (hrow : e.gs.map.get? (e.gs.player.pos.y + dy).toNat = some row)
    (hx : 0 ≤ e.gs.player.pos.x + dx)
    (hxr : (e.gs.player.pos.x + dx).toNat < row.length) :
    ∃ e2, handleGameAction C cfg e a = some e2 := by
  have hpg : pyGet e.gs.map (e.gs.player.pos.y + dy) = some row := by
    unfold pyGet
    rw [if_pos hy]
    exact hrow
  have htile : pyTile e.gs.map (e.gs.player.pos.x + dx) (e.gs.player.pos.y + dy)
      = some (row.get ⟨(e.gs.player.pos.x + dx).toNat, hxr⟩) := by
    unfold pyTile
    rw [hpg]
    show pyGet row (e.gs.player.pos.x + dx) = some _
    unfold pyGet
    rw [if_pos hx]
    exact List.get?_eq_get hxr
  simp only [handleGameAction, hdelta]
  simp only [handleMove]
  cases hen : getEnemyAt e.gs.enemies (e.gs.player.pos.x + dx) (e.gs.player.pos.y + dy) with
  | some te =>
    simp only [hen]
    exact ⟨_, rfl⟩
  | none =>
    simp only [hen]
    by_cases hw : C.isWalkable e.gs.map (e.gs.player.pos.x + dx) (e.gs.player.pos.y + dy) = true
    · simp only [hw, if_true]
      split
      · split
        · exact afterTrapStep_some C cfg e _ _ _ _ htile
        · exact ⟨_, rfl⟩
      · exact afterTrapStep_some C cfg e _ _ _ _ htile
    · have hw2 : C.isWalkable e.gs.map (e.gs.player.pos.x + dx) (e.gs.player.pos.y + dy)
          = false := by
        revert hw
        cases C.isWalkable e.gs.map (e.gs.player.pos.x + dx) (e.gs.player.pos.y + dy) <;> simp
      simp only [hw2, Bool.false_eq_true, if_false]
      rw [htile]
      show ∃ e2,
        (if row.get ⟨(e.gs.player.pos.x + dx).toNat, hxr⟩ = '>' then
          some (goDownstairs C cfg e)
        else if row.get ⟨(e.gs.player.pos.x + dx).toNat, hxr⟩ = '<' then
          some (goUpstairs C cfg e)
        else some e) = some e2
      by_cases h1 : row.get ⟨(e.gs.player.pos.x + dx).toNat, hxr⟩ = '>'
      · rw [if_pos h1]
        exact ⟨_, rfl⟩
      · rw [if_neg h1]
        by_cases h2 : row.get ⟨(e.gs.player.pos.x + dx).toNat, hxr⟩ = '<'
        · rw [if_pos h2]
          exact ⟨_, rfl⟩
        · rw [if_neg h2]
          exact ⟨_, rfl⟩

/-- Witness for C10 (amended): the in-bounds wall target above the
player yields a normal termination. -/
theorem c10_witness :
    ∃ e2, handleGameAction testCollabs testCfg baseEngine Action.moveUp = some e2 :=
  c10_inbounds_move_terminates testCollabs testCfg baseEngine Action.moveUp 0 (-1)
    [ '#', '#', '#' ] rfl (by decide) rfl (by decide) (by decide)

end DungeonHero
